import Mathlib

/-!
Verification of the BlogSpace application (`blog_app_supabase.py`).

The remote relational store is embedded as an explicit record of four
tables (`users`, `posts`, `comments`, `likes`), each a list of rows in
insertion order.  Every data-access function of the source becomes a pure
Lean function on this record; a function that mutates the store returns
the new store together with the value the Python function returns.
Timestamps (`created_at` / `updated_at`, produced by `datetime.now()`)
are modelled as natural numbers supplied by the caller.  The SHA-256
password digest (`hash_password`) is modelled as an arbitrary
deterministic function `hash : String → String` passed explicitly: none
of the verified properties depends on anything but its determinism.
-/

namespace BlogApp

/-- A row of the `users` table, with the columns written by `create_user`
(lines 41-54): `password` holds the digest, never the plaintext. -/
structure UserRow where
  id : Nat
  username : String
  email : String
  password : String
  bio : String
  created_at : Nat
deriving DecidableEq, Repr

/-- A row of the `posts` table, with the columns written by `create_post`
(lines 105-121). -/
structure PostRow where
  id : Nat
  user_id : Nat
  title : String
  content : String
  category : String
  views : Nat
  created_at : Nat
  updated_at : Nat
deriving DecidableEq, Repr

/-- A row of the `comments` table, with the columns written by
`add_comment` (lines 185-199); `parent_id` is null for a root comment and
holds the parent comment id for a reply. -/
structure CommentRow where
  id : Nat
  post_id : Nat
  user_id : Nat
  content : String
  parent_id : Option Nat
  created_at : Nat
deriving DecidableEq, Repr

/-- A row of the `likes` table, with the columns written by `add_like`
(lines 209-219). -/
structure LikeRow where
  id : Nat
  post_id : Nat
  user_id : Nat
  created_at : Nat
deriving DecidableEq, Repr

/-- The remote store: the four tables of the persisted schema. -/
structure Store where
  users : List UserRow
  posts : List PostRow
  comments : List CommentRow
  likes : List LikeRow
deriving DecidableEq, Repr

/-- Modelled from the spec: the remote `users` table (its schema is not in
the repository) declares `username (unique)`, so an insert whose username
is already present raises a constraint violation, which the caller
catches.  Network-level failures are modelled separately by
`create_user_result`. -/
def users_insert (s : Store) (u : UserRow) : Option Store :=
  if s.users.any (fun v => v.username == u.username) then none
  else some { s with users := s.users ++ [u] }

/-- `create_user` (lines 41-54): hashes the password, inserts the row,
returns `true`; any raised store error is caught and collapsed to
`false`. -/
def create_user (hash : String → String) (s : Store) (nid now : Nat)
    (username email pw bio : String) : Store × Bool :=
  match users_insert s ⟨nid, username, email, hash pw, bio, now⟩ with
  | some t => (t, true)
  | none => (s, false)

/-- `authenticate_user` (lines 56-66): selects the users matching the
username AND the hash of the supplied password, returns the first row or
none. -/
def authenticate_user (hash : String → String) (s : Store)
    (username pw : String) : Option UserRow :=
  (s.users.filter (fun u => u.username == username && u.password == hash pw)).head?

/-- `get_user_by_id` (lines 68-76): select by primary key, first row or
none. -/
def get_user_by_id (s : Store) (uid : Nat) : Option UserRow :=
  (s.users.filter (fun u => u.id == uid)).head?

/-- The re-read of the stored digest done by `change_password` line 97:
`select("password").eq("id", user_id)`, first row or none. -/
def stored_password (s : Store) (uid : Nat) : Option String :=
  ((s.users.filter (fun u => u.id == uid)).head?).map (fun u => u.password)

/-- `change_password` (lines 89-103): re-reads the stored digest, writes
the digest of the new password only when the stored digest equals the
digest of the supplied old password.  The source also calls
`get_user_by_id` first and discards the result; the binding `_user`
mirrors that dead read. -/
def change_password (hash : String → String) (s : Store) (uid : Nat)
    (old_pw new_pw : String) : Store × Bool :=
  let _user := get_user_by_id s uid
  let old_hashed := hash old_pw
  let new_hashed := hash new_pw
  match stored_password s uid with
  | some pw =>
      if pw == old_hashed then
        let users2 := s.users.map
          (fun v => if v.id == uid then { v with password := new_hashed } else v)
        ({ s with users := users2 }, true)
      else (s, false)
  | none => (s, false)

/-- One insertion step of the sort used to model the store's
`order("created_at", ascending=False)` on posts. -/
def insertDescByCreated (p : PostRow) : List PostRow → List PostRow
  | [] => [p]
  | q :: t =>
      if p.created_at ≤ q.created_at then q :: insertDescByCreated p t
      else p :: q :: t

/-- Posts ordered newest first, as returned by the store for
`get_all_posts`. -/
def sortDescByCreated : List PostRow → List PostRow
  | [] => []
  | p :: t => insertDescByCreated p (sortDescByCreated t)

/-- `get_all_posts` (lines 123-129): all posts, newest first. -/
def get_all_posts (s : Store) : List PostRow :=
  sortDescByCreated s.posts

/-- `delete_post` (lines 162-173): three sequential deletes — the
comments with this `post_id`, the likes with this `post_id`, the post
itself — then `true`. -/
def delete_post (s : Store) (pid : Nat) : Store × Bool :=
  ({ s with
      comments := s.comments.filter (fun c => !(c.post_id == pid)),
      likes := s.likes.filter (fun l => !(l.post_id == pid)),
      posts := s.posts.filter (fun p => !(p.id == pid)) }, true)

/-- The read half of `increment_view_count`: the stored view count of the
first post matching the id, if any. -/
def getViews (s : Store) (pid : Nat) : Option Nat :=
  ((s.posts.filter (fun p => p.id == pid)).head?).map (fun p => p.views)

/-- `increment_view_count` (lines 175-183): reads the current view count
and, when the post exists, writes count plus one. -/
def increment_view_count (s : Store) (pid : Nat) : Store :=
  match (s.posts.filter (fun p => p.id == pid)).head? with
  | some p =>
      let posts2 := s.posts.map
        (fun q => if q.id == pid then { q with views := p.views + 1 } else q)
      { s with posts := posts2 }
  | none => s

/-- `increment_view_count` called `n` times sequentially with no
interleaved operation. -/
def incrN (s : Store) (pid : Nat) : Nat → Store
  | 0 => s
  | n + 1 => increment_view_count (incrN s pid n) pid

/-- `add_comment` (lines 185-199): inserts the row and returns its id. -/
def add_comment (s : Store) (nid pid uid : Nat) (content : String)
    (parent_id : Option Nat) (now : Nat) : Store × Option Nat :=
  ({ s with comments := s.comments ++ [⟨nid, pid, uid, content, parent_id, now⟩] },
   some nid)

/-- One insertion step of the sort used to model the store's
`order("created_at", ascending=True)` on comments. -/
def insertAscByCreated (c : CommentRow) : List CommentRow → List CommentRow
  | [] => [c]
  | d :: t =>
      if d.created_at ≤ c.created_at then d :: insertAscByCreated c t
      else c :: d :: t

/-- Comments ordered oldest first, as returned by the store for
`get_comments`. -/
def sortAscByCreated : List CommentRow → List CommentRow
  | [] => []
  | c :: t => insertAscByCreated c (sortAscByCreated t)

/-- `get_comments` (lines 201-207): all comments of the post, oldest
first. -/
def get_comments (s : Store) (pid : Nat) : List CommentRow :=
  sortAscByCreated (s.comments.filter (fun c => c.post_id == pid))

/-- `add_like` (lines 209-219): inserts a like row unconditionally — no
uniqueness is enforced on the `(post_id, user_id)` pair. -/
def add_like (s : Store) (nid pid uid now : Nat) : Store × Bool :=
  ({ s with likes := s.likes ++ [⟨nid, pid, uid, now⟩] }, true)

/-- `remove_like` (lines 221-227): deletes every like row matching the
`(post_id, user_id)` pair. -/
def remove_like (s : Store) (pid uid : Nat) : Store × Bool :=
  let likes2 := s.likes.filter (fun l => !(l.post_id == pid && l.user_id == uid))
  ({ s with likes := likes2 }, true)

/-- `get_like_count` (lines 229-235): exact count of the like rows with
this `post_id`. -/
def get_like_count (s : Store) (pid : Nat) : Nat :=
  (s.likes.filter (fun l => l.post_id == pid)).length

/-- `check_user_liked` (lines 237-243): whether at least one like row
matches the `(post_id, user_id)` pair. -/
def check_user_liked (s : Store) (pid uid : Nat) : Bool :=
  decide (0 < (s.likes.filter (fun l => l.post_id == pid && l.user_id == uid)).length)

/-- `get_comment_count` (lines 245-251): exact count of the comment rows
with this `post_id` whose `parent_id` is null. -/
def get_comment_count (s : Store) (pid : Nat) : Nat :=
  (s.comments.filter (fun c => c.post_id == pid && c.parent_id == none)).length

/-- The error a store round trip can raise: a network failure or a
store-side constraint violation (the spec's two failure kinds), or
anything else — every Python handler catches bare `Exception`. -/
inductive StoreError where
  | networkError : StoreError
  | uniqueViolation : StoreError
  | otherError : StoreError
deriving DecidableEq, Repr

/-- The try/except shape of `create_user` (lines 41-54) as a function of
the store call's outcome: `true` on success, any raised error collapsed
to `false`. -/
def create_user_result (r : Except StoreError (List UserRow)) : Bool :=
  match r with
  | .ok _ => true
  | .error _ => false

/-- The try/except shape of `authenticate_user` (lines 56-66): first
returned row on success, any raised error collapsed to none. -/
def authenticate_user_result (r : Except StoreError (List UserRow)) : Option UserRow :=
  match r with
  | .ok rows => rows.head?
  | .error _ => none

/-- The try/except shape of `get_all_posts` (lines 123-129): the rows on
success, any raised error collapsed to the empty list. -/
def get_all_posts_result (r : Except StoreError (List PostRow)) : List PostRow :=
  match r with
  | .ok rows => rows
  | .error _ => []

/-- The try/except shape of `get_like_count` (lines 229-235): the count
on success, any raised error collapsed to zero. -/
def get_like_count_result (r : Except StoreError Nat) : Nat :=
  match r with
  | .ok n => n
  | .error _ => 0

/-- Whether the character list `n` occurs contiguously in `h`: the model
of Python's `needle in hay` on strings. -/
def listContains (n : List Char) : List Char → Bool
  | [] => n.isEmpty
  | c :: t => (c :: t).take n.length == n || listContains n t

/-- Python's `needle in hay` substring test. -/
def strContains (hay needle : String) : Bool :=
  listContains needle.toList hay.toList

/-- The post list built by `page_home` (lines 485-492): all posts, then
the search filter (lowercased substring of title or content, applied only
when the search box is nonempty), then the category filter (applied only
when the selected category is not All). -/
def page_home_filtered (s : Store) (search category : String) : List PostRow :=
  let posts := get_all_posts s
  let posts :=
    if search ≠ "" then
      posts.filter (fun p =>
        strContains p.title.toLower search.toLower ||
        strContains p.content.toLower search.toLower)
    else posts
  if category ≠ "All" then posts.filter (fun p => p.category == category)
  else posts

/-- The posts `page_home` actually renders (line 497):
`for post in posts[:10]`. -/
def page_home_rendered (s : Store) (search category : String) : List PostRow :=
  (page_home_filtered s search category).take 10

/-- The public pages of the router (line 946). -/
def publicPages : List String := ["home", "browse", "auth"]

/-- The access-control step of `main` (lines 946-947): a session that is
not logged in and asks for a page outside the public list is sent back to
home; otherwise the page is kept. -/
def routedPage (loggedIn : Bool) (page : String) : String :=
  if loggedIn = false ∧ page ∉ publicPages then "home" else page

/-- What `main`'s if/elif chain renders for a page identifier. -/
inductive Dispatch where
  | home
  | browse
  | create
  | createLoginWarning
  | viewPost
  | myPosts
  | myPostsLoginWarning
  | editPost
  | editLoginWarning
  | profile
  | profileLoginWarning
  | auth
  | blank
deriving DecidableEq, Repr

/-- `main` (lines 945-979): the access-control redirect followed by the
if/elif dispatch on the page identifier; login-required pages fall back
to a warning when the session is not logged in, and an unrecognized
identifier renders nothing. -/
def main_dispatch (loggedIn : Bool) (page0 : String) : Dispatch :=
  let page := routedPage loggedIn page0
  if page = "home" then .home
  else if page = "browse" then .browse
  else if page = "create" then
    (if loggedIn then .create else .createLoginWarning)
  else if page = "view_post" then .viewPost
  else if page = "my_posts" then
    (if loggedIn then .myPosts else .myPostsLoginWarning)
  else if page = "edit_post" then
    (if loggedIn then .editPost else .editLoginWarning)
  else if page = "profile" then
    (if loggedIn then .profile else .profileLoginWarning)
  else if page = "auth" then .auth
  else .blank

/-! ### Helper lemmas -/

/-- In a table whose rows have pairwise distinct keys, filtering on the
key of a present row returns exactly that row. -/
theorem filter_key_singleton {α : Type} (key : α → Nat) {k : Nat} {l : List α} {x : α}
    (hp : l.Pairwise (fun a b => key a ≠ key b)) (hm : x ∈ l) (hk : key x = k) :
    l.filter (fun y => key y == k) = [x] := by
  induction l with
  | nil => cases hm
  | cons a t ih =>
      rcases List.pairwise_cons.mp hp with ⟨ha, ht⟩
      rcases List.mem_cons.mp hm with h | hx
      · subst h
        have hrest : t.filter (fun y => key y == k) = [] := by
          rw [List.filter_eq_nil_iff]
          intro b hb
          simp only [beq_iff_eq]
          rw [← hk]
          exact fun hbk => (ha b hb) hbk.symm
        simp [List.filter_cons, hk, hrest]
      · have hak : (key a == k) = false := by
          simp only [beq_eq_false_iff_ne]
          rw [← hk]
          exact ha x hx
        simp only [List.filter_cons, hak, Bool.false_eq_true, if_false]
        exact ih ht hx

/-- Mapping a key-preserving function over a table keeps its keys
pairwise distinct. -/
theorem pairwise_key_map {α : Type} (key : α → Nat) (f : α → α) (l : List α)
    (hf : ∀ a, key (f a) = key a)
    (hp : l.Pairwise (fun a b => key a ≠ key b)) :
    (l.map f).Pairwise (fun a b => key a ≠ key b) := by
  rw [List.pairwise_map]
  refine hp.imp ?_
  intro a b h
  simpa [hf] using h

/-! ### Claim theorems -/

/-- Claim C6: every failure of the underlying store call, of whatever
kind, is caught and collapsed to the non-erroring value of the function
(`create_user` to false, `authenticate_user` to none, `get_all_posts` to
the empty list, `get_like_count` to zero), so the caller can never
distinguish the kind of failure; in particular `create_user` returns
false on any store error, a uniqueness violation included. -/
theorem data_access_errors_collapsed (e : StoreError) :
    create_user_result (Except.error e) = false ∧
    authenticate_user_result (Except.error e) = none ∧
    get_all_posts_result (Except.error e) = [] ∧
    get_like_count_result (Except.error e) = 0 ∧
    ∀ e2 : StoreError,
      create_user_result (Except.error e) = create_user_result (Except.error e2) :=
  ⟨rfl, rfl, rfl, rfl, fun _ => rfl⟩

/-- Claim C4: after `delete_post` succeeds, no comment row and no like
row with that post id remains — `get_comments` returns the empty list and
`get_like_count` returns zero. -/
theorem delete_post_cascades (s : Store) (pid : Nat) :
    get_comments (delete_post s pid).1 pid = [] ∧
    get_like_count (delete_post s pid).1 pid = 0 := by
  constructor
  · have h : (s.comments.filter (fun c => !(c.post_id == pid))).filter
        (fun c => c.post_id == pid) = [] := by
      rw [List.filter_eq_nil_iff]
      intro c hc
      have hq := (List.mem_filter.mp hc).2
      simp at hq ⊢
      exact hq
    simp [get_comments, delete_post, h, sortAscByCreated]
  · have h : (s.likes.filter (fun l => !(l.post_id == pid))).filter
        (fun l => l.post_id == pid) = [] := by
      rw [List.filter_eq_nil_iff]
      intro l hl
      have hq := (List.mem_filter.mp hl).2
      simp at hq ⊢
      exact hq
    simp [get_like_count, delete_post, h]

/-- Claim C5: `get_comment_count` equals the number of comments with the
given post id whose `parent_id` is null, and a reply (a comment whose
`parent_id` is non-null) never changes the returned count. -/
theorem comment_count_root_only (s : Store) (pid nid uid parent now : Nat)
    (content : String) :
    get_comment_count s pid =
      s.comments.countP (fun c => c.post_id == pid && c.parent_id == none) ∧
    get_comment_count (add_comment s nid pid uid content (some parent) now).1 pid =
      get_comment_count s pid := by
  constructor
  · rw [get_comment_count, List.countP_eq_length_filter]
  · simp [get_comment_count, add_comment, List.filter_append]

/-- Claim C8: two `add_like` calls for the same `(post_id, user_id)` pair
with no intervening `remove_like` insert two rows, so from a state with
no like on the post `get_like_count` afterwards returns 2. -/
theorem duplicate_likes_double_count (s : Store) (pid uid nid1 nid2 t1 t2 : Nat)
    (h : get_like_count s pid = 0) :
    get_like_count (add_like (add_like s nid1 pid uid t1).1 nid2 pid uid t2).1 pid = 2 := by
  have h0 : (s.likes.filter (fun l => l.post_id == pid)).length = 0 := h
  simp [get_like_count, add_like, List.filter_append, h0]

/-- Witness for claim C8 at a concrete empty store. -/
theorem duplicate_likes_double_count_witness :
    get_like_count (add_like (add_like (⟨[], [], [], []⟩ : Store) 7 1 2 0).1 8 1 2 0).1 1 = 2 :=
  duplicate_likes_double_count (⟨[], [], [], []⟩ : Store) 1 2 7 8 0 0 rfl

/-- Claim C10: one `remove_like` call deletes every like row matching the
`(post_id, user_id)` pair, duplicates included: afterwards
`check_user_liked` is false and the post's `get_like_count` is exactly
the number of its like rows from other users. -/
theorem remove_like_removes_all_duplicates (s : Store) (pid uid : Nat) :
    check_user_liked (remove_like s pid uid).1 pid uid = false ∧
    get_like_count (remove_like s pid uid).1 pid =
      s.likes.countP (fun l => l.post_id == pid && !(l.user_id == uid)) := by
  constructor
  · have h : (s.likes.filter (fun l => !(l.post_id == pid && l.user_id == uid))).filter
        (fun l => l.post_id == pid && l.user_id == uid) = [] := by
      rw [List.filter_eq_nil_iff]
      intro l hl
      have hq := (List.mem_filter.mp hl).2
      simp at hq ⊢
      tauto
    simp [check_user_liked, remove_like, h]
  · simp only [get_like_count, remove_like, List.filter_filter,
      List.countP_eq_length_filter]
    congr 1
    apply List.filter_congr
    intro l _
    cases h1 : (l.post_id == pid) <;> cases h2 : (l.user_id == uid) <;> simp [h1, h2]

/-- Claim C9: the home page renders at most 10 posts — exactly the first
10 of the list obtained from `get_all_posts` after the search and
category filters, however many posts match. -/
theorem home_page_ten_post_limit (s : Store) (search category : String) :
    page_home_rendered s search category =
      (page_home_filtered s search category).take 10 ∧
    (page_home_rendered s search category).length ≤ 10 ∧
    (page_home_rendered s search category).length =
      min 10 (page_home_filtered s search category).length := by
  refine ⟨rfl, ?_, ?_⟩
  · simp [page_home_rendered, List.length_take]
  · simp [page_home_rendered, List.length_take]

/-- Counterexample to claim C1 as stated: with a session that is not
logged in, the page identifier `view_post` is redirected to home by the
router although it is none of create, edit_post, my_posts, profile. -/
theorem router_redirects_view_post :
    routedPage false "view_post" = "home" ∧
    main_dispatch false "view_post" = Dispatch.home ∧
    "view_post" ∉ (["create", "edit_post", "my_posts", "profile"] : List String) := by
  decide

/-- Claim C1 (amended): for a session that is not logged in, the router
dispatches the public pages home, browse and auth to their controllers
unchanged, and replaces the current page by home exactly when the
requested page identifier is outside the public allowlist — this covers
create, edit_post, my_posts and profile, but equally view_post and every
unrecognized identifier. -/
theorem router_redirects_all_nonpublic (page : String) :
    main_dispatch false "home" = Dispatch.home ∧
    main_dispatch false "browse" = Dispatch.browse ∧
    main_dispatch false "auth" = Dispatch.auth ∧
    (routedPage false page ≠ page ↔ page ∉ publicPages) := by
  refine ⟨by decide, by decide, by decide, ?_⟩
  by_cases h : page ∈ publicPages
  · simp [routedPage, h]
  · have hne : page ≠ "home" := by
      intro he
      subst he
      exact h (by simp [publicPages])
    rw [routedPage, if_pos ⟨rfl, h⟩]
    exact iff_of_true (Ne.symm hne) h

/-- Claim C2: from any store whose users table does not yet contain the
username, `create_user` succeeds and `authenticate_user` with the same
username and password on the resulting store returns a user record whose
username equals the input username. -/
theorem create_then_authenticate (hash : String → String) (s : Store)
    (nid now : Nat) (username email pw bio : String)
    (hfree : ∀ u ∈ s.users, u.username ≠ username) :
    ∃ t r, create_user hash s nid now username email pw bio = (t, true) ∧
      authenticate_user hash t username pw = some r ∧ r.username = username := by
  have hany : s.users.any (fun v => v.username == username) = false := by
    rw [List.any_eq_false]
    intro v hv
    simpa using hfree v hv
  refine ⟨{ s with users := s.users ++ [⟨nid, username, email, hash pw, bio, now⟩] },
    ⟨nid, username, email, hash pw, bio, now⟩, ?_, ?_, rfl⟩
  · simp [create_user, users_insert, hany]
  · have h1 : s.users.filter
        (fun u => u.username == username && u.password == hash pw) = [] := by
      rw [List.filter_eq_nil_iff]
      intro u hu
      simp [hfree u hu]
    simp [authenticate_user, List.filter_append, h1]

/-- Witness for claim C2: signing up alice on the empty store and logging
in with the same credentials. -/
theorem create_then_authenticate_witness :
    ∃ t r, create_user (fun x => x) (⟨[], [], [], []⟩ : Store) 1 0
        "alice" "alice@x.com" "secret1" "" = (t, true) ∧
      authenticate_user (fun x => x) t "alice" "secret1" = some r ∧
      r.username = "alice" :=
  create_then_authenticate (fun x => x) (⟨[], [], [], []⟩ : Store) 1 0
    "alice" "alice@x.com" "secret1" "" (by simp)

/-- When the incremented post is present and post ids are pairwise
distinct, `increment_view_count` rewrites the posts table pointwise,
setting that post's view count to its current value plus one. -/
theorem increment_view_count_step (s : Store) (p : PostRow) (pid : Nat)
    (hu : s.posts.Pairwise (fun a b => a.id ≠ b.id))
    (hm : p ∈ s.posts) (hk : p.id = pid) :
    (increment_view_count s pid).posts =
      s.posts.map (fun q => if q.id == pid then { q with views := p.views + 1 } else q) := by
  have hf : s.posts.filter (fun q => q.id == pid) = [p] :=
    filter_key_singleton PostRow.id hu hm hk
  simp [increment_view_count, hf]

/-- Iterating `increment_view_count` keeps post ids pairwise distinct and
keeps the incremented post present, with its view count grown by the
number of iterations. -/
theorem incrN_invariant (s : Store) (p : PostRow) (pid : Nat)
    (hu : s.posts.Pairwise (fun a b => a.id ≠ b.id))
    (hm : p ∈ s.posts) (hk : p.id = pid) :
    ∀ n : Nat, (incrN s pid n).posts.Pairwise (fun a b => a.id ≠ b.id) ∧
      ({ p with views := p.views + n } : PostRow) ∈ (incrN s pid n).posts := by
  intro n
  induction n with
  | zero => exact ⟨hu, hm⟩
  | succ n ih =>
      obtain ⟨ihu, ihm⟩ := ih
      have hk2 : ({ p with views := p.views + n } : PostRow).id = pid := hk
      have hstep := increment_view_count_step (incrN s pid n)
        { p with views := p.views + n } pid ihu ihm hk2
      rw [incrN, hstep]
      constructor
      · exact pairwise_key_map PostRow.id _ _
          (fun a => by by_cases h : (a.id == pid) = true <;> simp [h]) ihu
      · have h2 := List.mem_map_of_mem
          (fun q => if q.id == pid then
            { q with views := ({ p with views := p.views + n } : PostRow).views + 1 }
          else q) ihm
        simpa [hk] using h2

/-- Claim C3: for a post present in a store whose post ids are pairwise
distinct, `n` sequential `increment_view_count` calls with no interleaved
operation leave the stored view count equal to the original count plus
`n`. -/
theorem increment_n_adds_n (s : Store) (p : PostRow) (pid n : Nat)
    (hu : s.posts.Pairwise (fun a b => a.id ≠ b.id))
    (hm : p ∈ s.posts) (hk : p.id = pid) :
    getViews (incrN s pid n) pid = some (p.views + n) := by
  obtain ⟨hu2, hm2⟩ := incrN_invariant s p pid hu hm hk n
  have hf : (incrN s pid n).posts.filter (fun q => q.id == pid) =
      [{ p with views := p.views + n }] :=
    filter_key_singleton PostRow.id hu2 hm2 hk
  simp [getViews, hf]

/-- Witness for claim C3: a store with one post with 5 views, viewed 3
more times, ends at 8 views. -/
theorem increment_n_adds_n_witness :
    getViews (incrN (⟨[], [⟨1, 1, "t", "c", "Technology", 5, 0, 0⟩], [], []⟩ : Store) 1 3) 1 =
      some 8 :=
  increment_n_adds_n (⟨[], [⟨1, 1, "t", "c", "Technology", 5, 0, 0⟩], [], []⟩ : Store)
    ⟨1, 1, "t", "c", "Technology", 5, 0, 0⟩ 1 3 (by simp) (by simp) rfl

/-- When user ids are pairwise distinct, the digest re-read by
`change_password` for a present user is that user's stored digest. -/
theorem stored_password_eq (s : Store) (u : UserRow) (uid : Nat)
    (hu : s.users.Pairwise (fun a b => a.id ≠ b.id))
    (hm : u ∈ s.users) (hk : u.id = uid) :
    stored_password s uid = some u.password := by
  have hf : s.users.filter (fun v => v.id == uid) = [u] :=
    filter_key_singleton UserRow.id hu hm hk
  simp [stored_password, hf]

/-- Claim C7: for a present user (user ids pairwise distinct),
`change_password` writes the digest of the new password and returns true
exactly when the stored digest equals the digest of the supplied old
password; when they differ it returns false and the store is unchanged. -/
theorem change_password_spec (hash : String → String) (s : Store) (uid : Nat)
    (old_pw new_pw : String) (u : UserRow)
    (hu : s.users.Pairwise (fun a b => a.id ≠ b.id))
    (hm : u ∈ s.users) (hk : u.id = uid) :
    (u.password = hash old_pw →
      (change_password hash s uid old_pw new_pw).2 = true ∧
      stored_password (change_password hash s uid old_pw new_pw).1 uid =
        some (hash new_pw)) ∧
    (u.password ≠ hash old_pw →
      change_password hash s uid old_pw new_pw = (s, false)) := by
  have hsp := stored_password_eq s u uid hu hm hk
  constructor
  · intro heq
    have hcp : change_password hash s uid old_pw new_pw =
        ({ s with users := s.users.map (fun v => if v.id == uid then { v with password := hash new_pw } else v) }, true) := by
      simp [change_password, hsp, heq]
    rw [hcp]
    refine ⟨rfl, ?_⟩
    have hu2 := pairwise_key_map UserRow.id
      (fun v => if v.id == uid then { v with password := hash new_pw } else v) s.users
      (fun a => by by_cases h : (a.id == uid) = true <;> simp [h]) hu
    have hm2 : ({ u with password := hash new_pw } : UserRow) ∈ s.users.map
        (fun v => if v.id == uid then { v with password := hash new_pw } else v) := by
      have h2 := List.mem_map_of_mem
        (fun v => if v.id == uid then { v with password := hash new_pw } else v) hm
      simpa [hk] using h2
    exact stored_password_eq _ ({ u with password := hash new_pw }) uid hu2 hm2 hk
  · intro hne
    simp [change_password, hsp, hne]

/-- Witness for claim C7: on a one-user store, changing the password with
the correct old password succeeds and stores the new digest. -/
theorem change_password_spec_witness :
    (change_password (fun x => x) (⟨[⟨1, "bob", "b@x.com", "pw", "", 0⟩], [], [], []⟩ : Store)
        1 "pw" "npw").2 = true ∧
    stored_password (change_password (fun x => x)
        (⟨[⟨1, "bob", "b@x.com", "pw", "", 0⟩], [], [], []⟩ : Store) 1 "pw" "npw").1 1 =
      some "npw" :=
  (change_password_spec (fun x => x)
    (⟨[⟨1, "bob", "b@x.com", "pw", "", 0⟩], [], [], []⟩ : Store) 1 "pw" "npw"
    ⟨1, "bob", "b@x.com", "pw", "", 0⟩ (by simp) (by simp) rfl).1 rfl
